import Mathlib

/-!
Shallow embedding of `autosklearn/pipeline/base.py` (class `BasePipeline`).

Conventions of the embedding:
* Python dicts that are iterated in insertion order are modelled as association
  lists; numbers are `Nat`/`Int`; fallible methods return `Except String`.
* `numpy` arrays of predictions are modelled as `List` of rows; a 2-D target
  array is a list whose row type is abstract, so both the 1-D and 2-D shapes of
  `predict` are instances of the same model.
* External collaborators (sklearn's `Pipeline.predict`, `check_random_state`,
  ConfigSpace's `Configuration`, `create_searchspace_util.get_match_array`) are
  modelled abstractly: either as universally quantified parameters or as small
  structures recording exactly the data the `base.py` code observes.
-/

namespace AutoSklearn

/-- A Python scalar value as it appears in configurations and dataset
properties (bool, int or str). -/
inductive PVal where
  | pbool : Bool → PVal
  | pint : Int → PVal
  | pstr : String → PVal
deriving DecidableEq

/-- Python `repr` of a `PVal` (bools render as `True`/`False`, strings with
single quotes). -/
def pyRepr : PVal → String
  | PVal.pbool true => "True"
  | PVal.pbool false => "False"
  | PVal.pint n => toString n
  | PVal.pstr s => "\x27" ++ s ++ "\x27"

/-- Python `str` of a `PVal` (like `pyRepr` but strings render unquoted). -/
def pyStr : PVal → String
  | PVal.pstr s => s
  | v => pyRepr v

/-- Python `str` of a list of strings, e.g. `['a', 'b']`. -/
def pyStrList (l : List String) : String :=
  "[" ++ String.intercalate ", " (l.map (fun s => "\x27" ++ s ++ "\x27")) ++ "]"

/-- The `batch_size` argument of `BasePipeline.predict`: `None`, a Python
`int`, or a value of any other runtime type (the code checks
`type(batch_size) is not int`). -/
inductive BatchSize where
  | none : BatchSize
  | int : Int → BatchSize
  | nonInt : BatchSize
deriving DecidableEq

/-- The unbatched prediction path `super(BasePipeline, self).predict(X).astype(...)`.
Modelled from the spec: the underlying fitted sklearn pipeline is an external
collaborator that predicts each row of `X` independently; `f` is its per-row
predictor with the `astype(self._output_dtype)` cast absorbed into it. -/
def superPredict (f : α → β) (X : List α) : List β := X.map f

/-- `max(1, int(np.ceil(float(n) / batch_size)))`: the number of loop
iterations of the batched path (exact ceiling division). -/
def nBatches (n batchSize : Nat) : Nat := max 1 ((n + batchSize - 1) / batchSize)

/-- numpy slice assignment `y[a:b] = vals` for `a ≤ b ≤ len y` and
`len vals = b - a`. -/
def writeSlice (y : List β) (a b : Nat) (vals : List β) : List β :=
  y.take a ++ vals ++ y.drop b

/-- One iteration of the batching loop in `BasePipeline.predict`:
`batch_from = k * batch_size`, `batch_to = min((k + 1) * batch_size, X.shape[0])`,
`y[batch_from:batch_to] = self.predict(X[batch_from:batch_to], batch_size=None)`. -/
def predictStep (f : α → β) (b : Nat) (X : List α) (y : List β) (k : Nat) : List β :=
  writeSlice y (k * b) (min ((k + 1) * b) X.length)
    (superPredict f ((X.drop (k * b)).take (min ((k + 1) * b) X.length - k * b)))

/-- The whole batching loop: `y = np.zeros(X.shape[0], ...)` (initial row `z`)
then the `for k in range(max(1, ceil(n / batch_size)))` loop. -/
def predictBatchedLoop (f : α → β) (z : β) (b : Nat) (X : List α) : List β :=
  (List.range (nBatches X.length b)).foldl (predictStep f b X)
    (List.replicate X.length z)

/-- `BasePipeline.predict(X, batch_size)`. -/
def predict (f : α → β) (z : β) (X : List α) (batchSize : BatchSize) :
    Except String (List β) :=
  match batchSize with
  | BatchSize.none => Except.ok (superPredict f X)
  | BatchSize.int i =>
      if i ≤ 0 then Except.error "batch_size must be a positive integer"
      else Except.ok (predictBatchedLoop f z i.toNat X)
  | BatchSize.nonInt => Except.error "batch_size must be a positive integer"

lemma le_nBatches_mul (b n : Nat) (hb : 0 < b) : n ≤ nBatches n b * b := by
  have h1 : n + b - 1 ≤ b * ((n + b - 1) / b) + (b - 1) := by
    conv_lhs => rw [← Nat.div_add_mod (n + b - 1) b]
    exact Nat.add_le_add_left (Nat.le_pred_of_lt (Nat.mod_lt _ hb)) _
  have h2 : n + (b - 1) ≤ b * ((n + b - 1) / b) + (b - 1) := by
    rw [← Nat.add_sub_assoc hb n]
    exact h1
  calc n ≤ b * ((n + b - 1) / b) := Nat.le_of_add_le_add_right h2
    _ = ((n + b - 1) / b) * b := Nat.mul_comm _ _
    _ ≤ max 1 ((n + b - 1) / b) * b := Nat.mul_le_mul_right _ (Nat.le_max_right 1 _)
    _ = nBatches n b * b := rfl

lemma predictLoop_inv (f : α → β) (z : β) (b : Nat) (X : List α) :
    ∀ m : Nat,
      (List.range m).foldl (predictStep f b X) (List.replicate X.length z) =
        ((X.take (min (m * b) X.length)).map f) ++
          List.replicate (X.length - min (m * b) X.length) z := by
  intro m
  induction m with
  | zero => simp
  | succ m ih =>
    rw [List.range_succ, List.foldl_append, ih]
    simp only [List.foldl_cons, List.foldl_nil]
    rcases le_or_lt X.length (m * b) with hn | hn
    · -- all rows already written: this iteration writes an empty slice
      have hc : min (m * b) X.length = X.length := Nat.min_eq_right hn
      rw [hc, predictStep, writeSlice]
      have hc' : min ((m + 1) * b) X.length = X.length :=
        Nat.min_eq_right (le_trans hn (Nat.mul_le_mul_right b (Nat.le_succ m)))
      rw [hc']
      have hdrop : X.drop (m * b) = [] := List.drop_eq_nil_of_le hn
      rw [hdrop]
      simp only [List.take_nil, superPredict, List.map_nil, Nat.sub_self,
        List.replicate_zero, List.append_nil, List.nil_append, List.take_length]
      rw [List.take_of_length_le (by simpa using hn),
        List.drop_eq_nil_of_le (by simp), List.append_nil]
    · -- the slice `[m*b, min ((m+1)*b) n)` is written this iteration
      have hc : min (m * b) X.length = m * b := Nat.min_eq_left (Nat.le_of_lt hn)
      rw [hc, predictStep, writeSlice]
      set n := X.length with hnn
      set c' := min ((m + 1) * b) n with hc'
      have hmc' : m * b ≤ c' :=
        le_min (Nat.mul_le_mul_right b (Nat.le_succ m)) (Nat.le_of_lt hn)
      have hc'n : c' ≤ n := Nat.min_le_right _ _
      have hlenA : (List.map f (X.take (m * b))).length = m * b := by
        rw [List.length_map, List.length_take, hc]
      rw [List.take_append_eq_append_take, List.drop_append_eq_append_drop, hlenA]
      rw [List.take_of_length_le (le_of_eq hlenA), Nat.sub_self, List.take_zero,
        List.drop_eq_nil_of_le (le_of_eq_of_le hlenA hmc'), List.append_nil,
        List.nil_append, List.drop_replicate]
      have hrep : n - m * b - (c' - m * b) = n - c' := by omega
      rw [hrep, superPredict]
      have hkey : List.map f (X.take (m * b)) ++
          List.map f ((X.drop (m * b)).take (c' - m * b)) =
            List.map f (X.take c') := by
        rw [← List.map_append]
        congr 1
        rw [← List.take_add]
        congr 1
        omega
      rw [hkey]

lemma predictBatchedLoop_eq (f : α → β) (z : β) (b : Nat) (X : List α)
    (hb : 0 < b) : predictBatchedLoop f z b X = X.map f := by
  rw [predictBatchedLoop, predictLoop_inv f z b X (nBatches X.length b),
    Nat.min_eq_right (le_nBatches_mul b X.length hb)]
  simp

/-- Claim C1: for every per-row predictor, every input and every positive
integer batch size, `predict(X, batch_size=b)` returns exactly the same list of
rows, in the same order, as `predict(X, batch_size=None)`. -/
theorem predict_batched_eq_unbatched (f : α → β) (z : β) (X : List α) (i : Int)
    (hi : 0 < i) :
    predict f z X (BatchSize.int i) = predict f z X BatchSize.none := by
  have h1 : predict f z X (BatchSize.int i) =
      Except.ok (predictBatchedLoop f z i.toNat X) := by
    simp [predict, Int.not_le.mpr hi]
  rw [h1, predictBatchedLoop_eq f z i.toNat X (by omega)]
  rfl

/-- Witness for C1 at a concrete fitted predictor and input. -/
theorem predict_batched_eq_unbatched_witness :
    predict Nat.succ 0 [3, 1, 4, 1, 5] (BatchSize.int 2) =
      predict Nat.succ 0 [3, 1, 4, 1, 5] BatchSize.none :=
  predict_batched_eq_unbatched Nat.succ 0 [3, 1, 4, 1, 5] 2 (by decide)

/-- Claim C5: with `batch_size` not `None`, `predict` raises the
`batch_size must be a positive integer` error exactly when `batch_size` is not
an `int` or is not strictly positive, and succeeds exactly on positive ints. -/
theorem predict_batch_size_check (f : α → β) (z : β) (X : List α)
    (bs : BatchSize) (h : bs ≠ BatchSize.none) :
    ((∃ y, predict f z X bs = Except.ok y) ↔
      (∃ i : Int, bs = BatchSize.int i ∧ 0 < i)) ∧
    ((predict f z X bs = Except.error "batch_size must be a positive integer") ↔
      ¬ (∃ i : Int, bs = BatchSize.int i ∧ 0 < i)) := by
  cases bs with
  | none => exact absurd rfl h
  | int i =>
    by_cases hi : i ≤ 0
    · constructor
      · constructor
        · rintro ⟨y, hy⟩
          simp [predict, hi] at hy
        · rintro ⟨j, hj, hp⟩
          injection hj with hj
          omega
      · constructor
        · rintro - ⟨j, hj, hp⟩
          injection hj with hj
          omega
        · intro _
          simp [predict, hi]
    · constructor
      · constructor
        · intro _
          exact ⟨i, rfl, by omega⟩
        · rintro -
          exact ⟨predictBatchedLoop f z i.toNat X, by simp [predict, hi]⟩
      · constructor
        · intro hy
          simp [predict, hi] at hy
        · intro hc
          exact absurd ⟨i, rfl, by omega⟩ hc
  | nonInt =>
    constructor
    · constructor
      · rintro ⟨y, hy⟩
        simp [predict] at hy
      · rintro ⟨j, hj, -⟩
        exact BatchSize.noConfusion hj
    · constructor
      · rintro - ⟨j, hj, -⟩
        exact BatchSize.noConfusion hj
      · intro _
        rfl

/-- Witness for C5 at a concrete non-positive batch size. -/
theorem predict_batch_size_check_witness :
    predict Nat.succ 0 [1, 2] (BatchSize.int (-1)) =
      Except.error "batch_size must be a positive integer" :=
  (predict_batch_size_check Nat.succ 0 [1, 2] (BatchSize.int (-1))
      (by decide)).2.mpr
    (by
      rintro ⟨j, hj, hp⟩
      injection hj with hj
      omega)

/-- A ConfigSpace `Configuration`: the configuration space it was built
against (represented by the space's hyperparameter names, which is what
structural equality of spaces observes in this embedding) together with its
values in iteration order; a `Option.none` value is an inactive
hyperparameter (Python `None`). -/
structure Configuration where
  space : List String
  values : List (String × Option PVal)
deriving DecidableEq

/-- The runtime kind of a pipeline node: `AutoSklearnComponent`,
`AutoSklearnChoice`, or anything else (which `set_hyperparameters`
rejects with `NotImplementedError`). -/
inductive NodeKind where
  | component : NodeKind
  | choice : NodeKind
  | other : NodeKind
deriving DecidableEq

/-- One `(name, node)` pair of `self.steps`; `applied` records the
sub-configuration last passed to the node's own `set_hyperparameters`
(the node's externally-held state observed by `base.py`). -/
structure PipelineStep where
  name : String
  kind : NodeKind
  applied : Option Configuration
deriving DecidableEq

/-- Python `param.startswith(pat)`. -/
def pyStartsWith (s pat : String) : Bool := pat.toList.isPrefixOf s.toList

/-- Python `s.replace(pat, '', 1)` on the character list of `s`: removes the
first occurrence of `pat`. -/
def replaceFirstAux (pat : List Char) : List Char → List Char
  | [] => []
  | c :: cs =>
      if pat.isPrefixOf (c :: cs) then (c :: cs).drop pat.length
      else c :: replaceFirstAux pat cs

/-- Python `s.replace(pat, '', 1)`. -/
def replaceFirst (s pat : String) : String :=
  String.mk (replaceFirstAux pat.toList s.toList)

/-- The `sub_config_dict` loop of `BasePipeline.set_hyperparameters`: every
hyperparameter of the flat configuration whose name starts with
`node_name ++ ":"`, with that pattern removed once by `str.replace(..., 1)`. -/
def routeSubDict (nodeName : String) (cfg : Configuration) :
    List (String × Option PVal) :=
  cfg.values.filterMap (fun pv =>
    if pyStartsWith pv.1 (nodeName ++ ":") then
      some (replaceFirst pv.1 (nodeName ++ ":"), pv.2)
    else none)

/-- Spec-side formulation (for the refinement claim C4): drop exactly the
`⟨step-name⟩:` leading characters of a qualified hyperparameter name. -/
def stripStepName (s pat : String) : String :=
  String.mk (s.toList.drop pat.toList.length)

/-- Spec-side formulation (for the refinement claim C4): select exactly the
hyperparameters whose name starts with `nodeName ++ ":"` and strip that
prefix once from each. -/
def routedByStep (nodeName : String) (cfg : Configuration) :
    List (String × Option PVal) :=
  (cfg.values.filter (fun pv => pyStartsWith pv.1 (nodeName ++ ":"))).map
    (fun pv => (stripStepName pv.1 (nodeName ++ ":"), pv.2))

/-- The update of one step performed by `set_hyperparameters`: the step's
sub-configuration-space is rebuilt from the current dataset properties
(`subSpaceOf` models the node's `get_hyperparameter_search_space`), and the
routed sub-configuration is applied to the node. -/
def routeStep (subSpaceOf : String → List (String × PVal) → List String)
    (dp : List (String × PVal)) (cfg : Configuration) (s : PipelineStep) :
    PipelineStep :=
  { name := s.name, kind := s.kind,
    applied := some ⟨subSpaceOf s.name dp, routeSubDict s.name cfg⟩ }

/-- The `for node_idx, n_ in enumerate(self.steps)` loop of
`set_hyperparameters`: each step is updated in order; a node that is neither
an `AutoSklearnChoice` nor an `AutoSklearnComponent` raises
`NotImplementedError('Not supported yet!')`. -/
def setHypSteps (subSpaceOf : String → List (String × PVal) → List String)
    (dp : List (String × PVal)) (cfg : Configuration) :
    List PipelineStep → Except String (List PipelineStep)
  | [] => Except.ok []
  | s :: rest =>
      match s.kind with
      | NodeKind.other => Except.error "Not supported yet!"
      | _ =>
          match setHypSteps subSpaceOf dp cfg rest with
          | Except.error e => Except.error e
          | Except.ok rest2 => Except.ok (routeStep subSpaceOf dp cfg s :: rest2)

/-- `BasePipeline.set_hyperparameters(configuration)`: stores the
configuration (`self.configuration = configuration`) and updates every step;
the result is the pair of the stored configuration and the updated steps. -/
def setHyperparameters (subSpaceOf : String → List (String × PVal) → List String)
    (dp : List (String × PVal)) (steps : List PipelineStep)
    (cfg : Configuration) : Except String (Configuration × List PipelineStep) :=
  match setHypSteps subSpaceOf dp cfg steps with
  | Except.error e => Except.error e
  | Except.ok steps2 => Except.ok (cfg, steps2)

lemma replaceFirstAux_of_isPre (pat l : List Char)
    (h : pat.isPrefixOf l = true) : replaceFirstAux pat l = l.drop pat.length := by
  cases l with
  | nil => simp [replaceFirstAux]
  | cons c cs => simp [replaceFirstAux, h]

lemma routeSubDict_eq_routedByStep (nodeName : String) (cfg : Configuration) :
    routeSubDict nodeName cfg = routedByStep nodeName cfg := by
  rw [routeSubDict, routedByStep]
  induction cfg.values with
  | nil => rfl
  | cons pv rest ih =>
    by_cases hg : pyStartsWith pv.1 (nodeName ++ ":") = true
    · have hstrip : replaceFirst pv.1 (nodeName ++ ":") =
          stripStepName pv.1 (nodeName ++ ":") := by
        rw [replaceFirst, stripStepName,
          replaceFirstAux_of_isPre _ _ (by simpa [pyStartsWith] using hg)]
      simp [List.filterMap_cons, List.filter_cons, hg, hstrip, ih]
    · simp [List.filterMap_cons, List.filter_cons, hg, ih]

lemma setHypSteps_ok_iff (subSpaceOf : String → List (String × PVal) → List String)
    (dp : List (String × PVal)) (cfg : Configuration) :
    ∀ (steps steps2 : List PipelineStep),
      setHypSteps subSpaceOf dp cfg steps = Except.ok steps2 ↔
        ((∀ s ∈ steps, s.kind ≠ NodeKind.other) ∧
          steps2 = steps.map (routeStep subSpaceOf dp cfg)) := by
  intro steps
  induction steps with
  | nil =>
    intro steps2
    simp [setHypSteps, eq_comm]
  | cons s rest ih =>
    intro steps2
    constructor
    · intro h
      rw [setHypSteps] at h
      cases hk : s.kind with
      | other => rw [hk] at h; exact absurd h (by simp)
      | component =>
        rw [hk] at h
        cases hr : setHypSteps subSpaceOf dp cfg rest with
        | error e => rw [hr] at h; exact absurd h (by simp)
        | ok rest2 =>
          rw [hr] at h
          obtain ⟨h1, h2⟩ := (ih rest2).mp hr
          refine ⟨?_, ?_⟩
          · intro t ht
            rcases List.mem_cons.mp ht with rfl | ht
            · rw [hk]; exact fun hc => NodeKind.noConfusion hc
            · exact h1 t ht
          · simp only [Except.ok.injEq] at h
            rw [← h, List.map_cons, h2]
      | choice =>
        rw [hk] at h
        cases hr : setHypSteps subSpaceOf dp cfg rest with
        | error e => rw [hr] at h; exact absurd h (by simp)
        | ok rest2 =>
          rw [hr] at h
          obtain ⟨h1, h2⟩ := (ih rest2).mp hr
          refine ⟨?_, ?_⟩
          · intro t ht
            rcases List.mem_cons.mp ht with rfl | ht
            · rw [hk]; exact fun hc => NodeKind.noConfusion hc
            · exact h1 t ht
          · simp only [Except.ok.injEq] at h
            rw [← h, List.map_cons, h2]
    · rintro ⟨h1, rfl⟩
      have hrest : setHypSteps subSpaceOf dp cfg rest =
          Except.ok (rest.map (routeStep subSpaceOf dp cfg)) :=
        (ih _).mpr ⟨fun t ht => h1 t (List.mem_cons_of_mem s ht), rfl⟩
      have hs : s.kind ≠ NodeKind.other := h1 s (List.mem_cons_self s rest)
      rw [setHypSteps]
      cases hk : s.kind with
      | other => exact absurd hk hs
      | component => rw [hrest]; rfl
      | choice => rw [hrest]; rfl

/-- Claim C4: on success, `set_hyperparameters` stores the flat configuration
and replaces every step's applied sub-configuration by one whose space is the
step's sub-space freshly rebuilt from the current dataset properties and whose
values are exactly the flat configuration's hyperparameters with names
starting with `"<step-name>:"`, that prefix stripped once from each. -/
theorem set_hyperparameters_routes
    (subSpaceOf : String → List (String × PVal) → List String)
    (dp : List (String × PVal)) (steps : List PipelineStep)
    (cfg cfg2 : Configuration) (steps2 : List PipelineStep)
    (h : setHyperparameters subSpaceOf dp steps cfg = Except.ok (cfg2, steps2)) :
    cfg2 = cfg ∧
      steps2 = steps.map (fun s =>
        { name := s.name, kind := s.kind,
          applied := some ⟨subSpaceOf s.name dp, routedByStep s.name cfg⟩ }) := by
  rw [setHyperparameters] at h
  cases hr : setHypSteps subSpaceOf dp cfg steps with
  | error e => rw [hr] at h; exact absurd h (by simp)
  | ok stepsr =>
    rw [hr] at h
    simp only [Except.ok.injEq, Prod.mk.injEq] at h
    obtain ⟨hcfg, hsteps⟩ := h
    obtain ⟨-, h2⟩ := (setHypSteps_ok_iff subSpaceOf dp cfg steps stepsr).mp hr
    refine ⟨hcfg.symm, ?_⟩
    rw [← hsteps, h2]
    exact List.map_congr_left (fun s _ => by
      rw [routeStep, routeSubDict_eq_routedByStep])

/-- Witness for C4 at a concrete pipeline and configuration. -/
theorem set_hyperparameters_routes_witness :
    (⟨["clf:p"], [("clf:p", some (PVal.pint 3)), ("other:q", some (PVal.pint 4))]⟩ :
        Configuration) = ⟨["clf:p"],
          [("clf:p", some (PVal.pint 3)), ("other:q", some (PVal.pint 4))]⟩ ∧
      ([⟨"clf", NodeKind.choice,
          some ⟨["p"], [("p", some (PVal.pint 3))]⟩⟩] : List PipelineStep) =
        ([⟨"clf", NodeKind.choice, Option.none⟩] : List PipelineStep).map
          (fun s =>
            { name := s.name, kind := s.kind,
              applied := some ⟨["p"],
                routedByStep s.name ⟨["clf:p"],
                  [("clf:p", some (PVal.pint 3)), ("other:q", some (PVal.pint 4))]⟩⟩ }) :=
  set_hyperparameters_routes (fun _ _ => ["p"]) []
    [⟨"clf", NodeKind.choice, Option.none⟩]
    ⟨["clf:p"], [("clf:p", some (PVal.pint 3)), ("other:q", some (PVal.pint 4))]⟩
    ⟨["clf:p"], [("clf:p", some (PVal.pint 3)), ("other:q", some (PVal.pint 4))]⟩
    [⟨"clf", NodeKind.choice, some ⟨["p"], [("p", some (PVal.pint 3))]⟩⟩]
    rfl

/-- Claim C7: applying the same configuration a second time to the state left
by a successful `set_hyperparameters` reproduces exactly that state (stored
configuration, steps and each step's applied sub-configuration). -/
theorem set_hyperparameters_idempotent
    (subSpaceOf : String → List (String × PVal) → List String)
    (dp : List (String × PVal)) (steps : List PipelineStep)
    (cfg : Configuration) (p : Configuration × List PipelineStep)
    (h : setHyperparameters subSpaceOf dp steps cfg = Except.ok p) :
    setHyperparameters subSpaceOf dp p.2 cfg = Except.ok p ∧ p.1 = cfg := by
  rw [setHyperparameters] at h
  cases hr : setHypSteps subSpaceOf dp cfg steps with
  | error e => rw [hr] at h; exact absurd h (by simp)
  | ok stepsr =>
    rw [hr] at h
    simp only [Except.ok.injEq] at h
    obtain ⟨hkinds, hmap⟩ := (setHypSteps_ok_iff subSpaceOf dp cfg steps stepsr).mp hr
    have hp2 : p.2 = stepsr := by rw [← h]
    have hp1 : p.1 = cfg := by rw [← h]
    have hiter : setHypSteps subSpaceOf dp cfg stepsr = Except.ok stepsr := by
      refine (setHypSteps_ok_iff subSpaceOf dp cfg stepsr stepsr).mpr ⟨?_, ?_⟩
      · intro t ht
        rw [hmap] at ht
        obtain ⟨s, hs, rfl⟩ := List.mem_map.mp ht
        exact fun hc => (hkinds s hs) hc
      · rw [hmap, List.map_map]
        exact List.map_congr_left (fun s _ => rfl)
    refine ⟨?_, hp1⟩
    rw [setHyperparameters, hp2, hiter]
    exact congrArg Except.ok h

/-- Witness for C7 at a concrete pipeline and configuration. -/
theorem set_hyperparameters_idempotent_witness :
    setHyperparameters (fun _ _ => ["p"]) []
        [⟨"clf", NodeKind.choice, some ⟨["p"], [("p", some (PVal.pint 3))]⟩⟩]
        ⟨["clf:p"], [("clf:p", some (PVal.pint 3))]⟩ =
      Except.ok (⟨["clf:p"], [("clf:p", some (PVal.pint 3))]⟩,
        [⟨"clf", NodeKind.choice, some ⟨["p"], [("p", some (PVal.pint 3))]⟩⟩]) ∧
      (⟨["clf:p"], [("clf:p", some (PVal.pint 3))]⟩ : Configuration) =
        ⟨["clf:p"], [("clf:p", some (PVal.pint 3))]⟩ :=
  set_hyperparameters_idempotent (fun _ _ => ["p"]) []
    [⟨"clf", NodeKind.choice, Option.none⟩]
    ⟨["clf:p"], [("clf:p", some (PVal.pint 3))]⟩
    (⟨["clf:p"], [("clf:p", some (PVal.pint 3))]⟩,
      [⟨"clf", NodeKind.choice, some ⟨["p"], [("p", some (PVal.pint 3))]⟩⟩])
    rfl

/-- The first key of `keys` that is not an existing step name
(`for key in include: if key not in keys: raise ...`). -/
def firstInvalidKey (keys stepNames : List String) : Option String :=
  keys.find? (fun k => !(stepNames.contains k))

/-- The `ValueError('Invalid key in %s: %s; should be one of %s')` message. -/
def invalidKeyMsg (area k : String) (stepNames : List String) : String :=
  "Invalid key in " ++ area ++ ": " ++ k ++ "; should be one of " ++
    pyStrList stepNames

/-- The include/exclude key validation loop of
`BasePipeline._get_hyperparameter_search_space`. -/
def validateKeys (area : String) (keys stepNames : List String) :
    Except String Unit :=
  match firstInvalidKey keys stepNames with
  | some k => Except.error (invalidKeyMsg area k stepNames)
  | Option.none => Except.ok ()

/-- Python `key in dataset_properties` (dict key membership). -/
def dpHasKey (k : String) (dp : List (String × PVal)) : Bool :=
  decide (k ∈ dp.map Prod.fst)

/-- The in-place defaulting of `dataset_properties`:
`dataset_properties['sparse'] = False` when `'sparse'` is absent, then the
same for `'signed'`; the result is the final state of the very dict the
caller passed in. -/
def applyDatasetDefaults (dp : List (String × PVal)) : List (String × PVal) :=
  let dp1 := if dpHasKey "sparse" dp then dp else dp ++ [("sparse", PVal.pbool false)]
  if dpHasKey "signed" dp1 then dp1 else dp1 ++ [("signed", PVal.pbool false)]

/-- The part of `_get_hyperparameter_search_space` after selector validation:
defaulting of dataset properties, then the two `assert`s over the match
matrix returned by the external `get_match_array` (`m` is that matrix's list
of entries; `np.sum` is its sum and `np.size` its length).  The per-step
space assembly that follows delegates entirely to external components, so the
success value of this embedding is the final state of the caller's
`dataset_properties` dict. -/
def searchSpaceBody (dp : List (String × PVal)) (m : List Nat) :
    Except String (List (String × PVal)) :=
  let dp2 := applyDatasetDefaults dp
  if m.sum = 0 then Except.error "No valid pipeline found."
  else if m.length < m.sum then Except.error "\x27matches\x27 is not binary"
  else Except.ok dp2

/-- `BasePipeline._get_hyperparameter_search_space(cs, dataset_properties,
exclude, include, pipeline)`: validate include keys, then exclude keys
(against the pipeline's step names), then run the body. -/
def buildSearchSpace (stepNames : List String)
    (inc exc : Option (List String)) (dp : List (String × PVal))
    (m : List Nat) : Except String (List (String × PVal)) :=
  match validateKeys "include" (inc.getD []) stepNames with
  | Except.error e => Except.error e
  | Except.ok _ =>
      match validateKeys "exclude" (exc.getD []) stepNames with
      | Except.error e => Except.error e
      | Except.ok _ => searchSpaceBody dp m

lemma buildSearchSpace_ok_iff (stepNames : List String)
    (inc exc : Option (List String)) (dp : List (String × PVal))
    (m : List Nat) (d : List (String × PVal)) :
    buildSearchSpace stepNames inc exc dp m = Except.ok d ↔
      (firstInvalidKey (inc.getD []) stepNames = Option.none ∧
        firstInvalidKey (exc.getD []) stepNames = Option.none ∧
        m.sum ≠ 0 ∧ ¬ (m.length < m.sum) ∧ d = applyDatasetDefaults dp) := by
  rw [buildSearchSpace, validateKeys, validateKeys]
  cases h1 : firstInvalidKey (inc.getD []) stepNames with
  | some k => simp
  | none =>
    cases h2 : firstInvalidKey (exc.getD []) stepNames with
    | some k => simp
    | none =>
      rw [searchSpaceBody]
      by_cases hs : m.sum = 0
      · simp [hs]
      · by_cases hl : m.length < m.sum
        · simp [hs, hl]
        · simp [hs, hl, eq_comm]

/-- Claim C2: whenever `_get_hyperparameter_search_space` succeeds, the match
matrix it received satisfied `0 < sum ≤ size`, and a matrix with zero true
entries always makes construction fail. -/
theorem match_matrix_invariant (stepNames : List String)
    (inc exc : Option (List String)) (dp : List (String × PVal))
    (m : List Nat) :
    (∀ d, buildSearchSpace stepNames inc exc dp m = Except.ok d →
        0 < m.sum ∧ m.sum ≤ m.length) ∧
      (m.sum = 0 → ∀ d, buildSearchSpace stepNames inc exc dp m ≠ Except.ok d) := by
  constructor
  · intro d h
    obtain ⟨-, -, hs, hl, -⟩ := (buildSearchSpace_ok_iff stepNames inc exc dp m d).mp h
    omega
  · intro hz d h
    obtain ⟨-, -, hs, -, -⟩ := (buildSearchSpace_ok_iff stepNames inc exc dp m d).mp h
    exact hs hz

/-- Witness for C2: a one-true-entry matrix passes both asserts; an all-false
matrix makes construction fail. -/
theorem match_matrix_invariant_witness :
    (0 < List.sum [1] ∧ List.sum [1] ≤ List.length [1]) ∧
      buildSearchSpace ["step"] Option.none Option.none [] [0] ≠
        Except.ok [("sparse", PVal.pbool false), ("signed", PVal.pbool false)] :=
  ⟨(match_matrix_invariant ["step"] Option.none Option.none [] [1]).1
      [("sparse", PVal.pbool false), ("signed", PVal.pbool false)] rfl,
    (match_matrix_invariant ["step"] Option.none Option.none [] [0]).2 rfl
      [("sparse", PVal.pbool false), ("signed", PVal.pbool false)]⟩

/-- Claim C6: an include key that is no step name fails construction with the
`Invalid key in include` error naming the first offending key (similarly for
exclude once include passed), the named key really is an offending one, and
when every include and exclude key is an existing step name the validation
passes and construction proceeds to the body. -/
theorem include_exclude_key_validation (stepNames : List String)
    (inc exc : Option (List String)) (dp : List (String × PVal))
    (m : List Nat) :
    (∀ k, firstInvalidKey (inc.getD []) stepNames = some k →
        buildSearchSpace stepNames inc exc dp m =
          Except.error (invalidKeyMsg "include" k stepNames)) ∧
      (∀ k, firstInvalidKey (inc.getD []) stepNames = Option.none →
        firstInvalidKey (exc.getD []) stepNames = some k →
        buildSearchSpace stepNames inc exc dp m =
          Except.error (invalidKeyMsg "exclude" k stepNames)) ∧
      (∀ k, firstInvalidKey (inc.getD []) stepNames = some k →
        k ∈ inc.getD [] ∧ stepNames.contains k = false) ∧
      (∀ k, firstInvalidKey (exc.getD []) stepNames = some k →
        k ∈ exc.getD [] ∧ stepNames.contains k = false) ∧
      ((inc.getD []).all (fun k => stepNames.contains k) = true →
        (exc.getD []).all (fun k => stepNames.contains k) = true →
        buildSearchSpace stepNames inc exc dp m = searchSpaceBody dp m) := by
  refine ⟨?_, ?_, ?_, ?_, ?_⟩
  · intro k hk
    rw [buildSearchSpace, validateKeys, hk]
  · intro k hinc hk
    rw [buildSearchSpace, validateKeys, hinc, validateKeys, hk]
  · intro k hk
    refine ⟨List.mem_of_find?_eq_some hk, ?_⟩
    have := List.find?_some hk
    simpa using this
  · intro k hk
    refine ⟨List.mem_of_find?_eq_some hk, ?_⟩
    have := List.find?_some hk
    simpa using this
  · intro hincall hexcall
    have hinc : firstInvalidKey (inc.getD []) stepNames = Option.none := by
      rw [firstInvalidKey, List.find?_eq_none]
      intro x hx
      simpa using List.all_eq_true.mp hincall x hx
    have hexc : firstInvalidKey (exc.getD []) stepNames = Option.none := by
      rw [firstInvalidKey, List.find?_eq_none]
      intro x hx
      simpa using List.all_eq_true.mp hexcall x hx
    rw [buildSearchSpace, validateKeys, hinc, validateKeys, hexc]

/-- Witness for C6: a bad include key, a bad exclude key, and a fully valid
selector pair, each at concrete inputs. -/
theorem include_exclude_key_validation_witness :
    buildSearchSpace ["a"] (some ["b"]) Option.none [] [1] =
        Except.error (invalidKeyMsg "include" "b" ["a"]) ∧
      buildSearchSpace ["a"] Option.none (some ["c"]) [] [1] =
        Except.error (invalidKeyMsg "exclude" "c" ["a"]) ∧
      buildSearchSpace ["a"] (some ["a"]) (some ["a"]) [] [1] =
        searchSpaceBody [] [1] :=
  ⟨(include_exclude_key_validation ["a"] (some ["b"]) Option.none [] [1]).1 "b" rfl,
    (include_exclude_key_validation ["a"] Option.none (some ["c"]) [] [1]).2.1 "c"
      rfl rfl,
    (include_exclude_key_validation ["a"] (some ["a"]) (some ["a"]) [] [1]).2.2.2.2
      rfl rfl⟩

/-- Counterexample to claim C8: the construction call does not leave the
caller-supplied dataset-properties mapping unchanged — on an empty mapping it
returns the mapping extended in place with the two defaults, which differs
from the mapping that was passed in. -/
theorem dataset_properties_mutated_counterexample :
    buildSearchSpace ["a"] Option.none Option.none [] [1] =
        Except.ok [("sparse", PVal.pbool false), ("signed", PVal.pbool false)] ∧
      ([("sparse", PVal.pbool false), ("signed", PVal.pbool false)] :
          List (String × PVal)) ≠ [] := by
  constructor
  · rfl
  · intro h
    exact List.noConfusion h

/-- Claim C8 as amended: defaults `sparse=false` and `signed=false` are added
for absent keys by mutating the caller's mapping in place; existing entries
are preserved, and the mapping is left unchanged exactly when both keys were
already present. -/
theorem dataset_defaults_amended (stepNames : List String)
    (inc exc : Option (List String)) (dp : List (String × PVal))
    (m : List Nat) (d : List (String × PVal))
    (h : buildSearchSpace stepNames inc exc dp m = Except.ok d) :
    dpHasKey "sparse" d = true ∧ dpHasKey "signed" d = true ∧
      (∀ p ∈ dp, p ∈ d) ∧
      (dpHasKey "sparse" dp = false → ("sparse", PVal.pbool false) ∈ d) ∧
      (dpHasKey "signed" dp = false → ("signed", PVal.pbool false) ∈ d) ∧
      (dpHasKey "sparse" dp = true → dpHasKey "signed" dp = true → d = dp) := by
  obtain ⟨-, -, -, -, hd⟩ :=
    (buildSearchSpace_ok_iff stepNames inc exc dp m d).mp h
  subst hd
  rw [applyDatasetDefaults]
  by_cases hsp : dpHasKey "sparse" dp
  · rw [if_pos hsp]
    by_cases hsg : dpHasKey "signed" dp
    · rw [if_pos hsg]
      exact ⟨hsp, hsg, fun p hp => hp, fun hc => absurd hsp (by rw [hc]; simp),
        fun hc => absurd hsg (by rw [hc]; simp), fun _ _ => rfl⟩
    · rw [if_neg hsg]
      refine ⟨?_, ?_, ?_, ?_, ?_, ?_⟩
      · simp only [dpHasKey, List.map_append] at hsp ⊢
        simp only [decide_eq_true_eq] at hsp ⊢
        exact List.mem_append_left _ hsp
      · simp [dpHasKey]
      · intro p hp
        exact List.mem_append_left _ hp
      · intro hc
        rw [hc] at hsp
        exact absurd hsp (by simp)
      · intro _
        exact List.mem_append_right _ (by simp)
      · intro _ hsg2
        exact absurd hsg2 (by simp [hsg])
  · rw [if_neg hsp]
    have hsg1 : dpHasKey "signed" (dp ++ [("sparse", PVal.pbool false)]) =
        dpHasKey "signed" dp := by
      simp [dpHasKey]
    rw [hsg1]
    by_cases hsg : dpHasKey "signed" dp
    · rw [if_pos hsg]
      refine ⟨?_, ?_, ?_, ?_, ?_, ?_⟩
      · simp [dpHasKey]
      · simp only [dpHasKey, List.map_append, decide_eq_true_eq] at hsg ⊢
        exact List.mem_append_left _ hsg
      · intro p hp
        exact List.mem_append_left _ hp
      · intro _
        exact List.mem_append_right _ (by simp)
      · intro hc
        rw [hc] at hsg
        exact absurd hsg (by simp)
      · intro hsp2 _
        exact absurd hsp2 (by simp [hsp])
    · rw [if_neg hsg]
      refine ⟨?_, ?_, ?_, ?_, ?_, ?_⟩
      · simp [dpHasKey]
      · simp [dpHasKey]
      · intro p hp
        exact List.mem_append_left _ (List.mem_append_left _ hp)
      · intro _
        exact List.mem_append_left _ (List.mem_append_right _ (by simp))
      · intro _
        exact List.mem_append_right _ (by simp)
      · intro hsp2 _
        exact absurd hsp2 (by simp [hsp])

/-- Witness for the amended C8 at a mapping that already has `sparse` but not
`signed`. -/
theorem dataset_defaults_amended_witness :
    dpHasKey "sparse"
        [("sparse", PVal.pbool true), ("signed", PVal.pbool false)] = true ∧
      dpHasKey "signed"
        [("sparse", PVal.pbool true), ("signed", PVal.pbool false)] = true ∧
      (∀ p ∈ [("sparse", PVal.pbool true)],
        p ∈ [("sparse", PVal.pbool true), ("signed", PVal.pbool false)]) ∧
      (dpHasKey "sparse" [("sparse", PVal.pbool true)] = false →
        ("sparse", PVal.pbool false) ∈
          [("sparse", PVal.pbool true), ("signed", PVal.pbool false)]) ∧
      (dpHasKey "signed" [("sparse", PVal.pbool true)] = false →
        ("signed", PVal.pbool false) ∈
          [("sparse", PVal.pbool true), ("signed", PVal.pbool false)]) ∧
      (dpHasKey "sparse" [("sparse", PVal.pbool true)] = true →
        dpHasKey "signed" [("sparse", PVal.pbool true)] = true →
        [("sparse", PVal.pbool true), ("signed", PVal.pbool false)] =
          [("sparse", PVal.pbool true)]) :=
  dataset_defaults_amended ["a"] Option.none Option.none
    [("sparse", PVal.pbool true)] [1]
    [("sparse", PVal.pbool true), ("signed", PVal.pbool false)] rfl

/-- The `random_state` attribute: sklearn's external `check_random_state`
is abstracted as the seed it was called with (a seeded generator is
determined by its seed). -/
structure RandomState where
  seed : Nat
deriving DecidableEq

/-- `sklearn.utils.validation.check_random_state(seed)` (external
collaborator, abstracted to its seed). -/
def checkRandomState (seed : Nat) : RandomState := ⟨seed⟩

/-- The `config` argument of `BasePipeline.__init__`: `None`, a ConfigSpace
`Configuration`, or a plain dict of values. -/
inductive ConfigArg where
  | none : ConfigArg
  | conf : Configuration → ConfigArg
  | dict : List (String × Option PVal) → ConfigArg
deriving DecidableEq

/-- The `ValueError` raised on a configuration-space mismatch; the
`difflib.unified_diff` of the two space renderings is abstracted as showing
both spaces. -/
def mismatchMsg (cs confSpace : List String) : String :=
  "Configuration passed does not come from the same configuration space. " ++
    "Differences are: " ++ pyStrList cs ++ " vs " ++ pyStrList confSpace

/-- The pipeline state built by `BasePipeline.__init__`. -/
structure PipelineState where
  steps : List PipelineStep
  dataset_properties_ : List (String × PVal)
  configuration_ : Configuration
  random_state : RandomState
deriving DecidableEq

/-- `BasePipeline.__init__(config, pipeline, dataset_properties, include,
exclude, random_state)`.  The subclass hook `get_hyperparameter_search_space`
is the external parameter `buildCS` (a pure function of the dataset
properties and the include/exclude selectors), its `get_default_configuration`
is `defaultCfg`, the steps returned by `self._get_pipeline()` are
`basePipeline`, and each node's own space builder is `subSpaceOf` as in
`setHyperparameters`. -/
def pipelineInit
    (buildCS : Option (List (String × PVal)) → Option (List String) →
      Option (List String) → List String)
    (defaultCfg : List String → Configuration)
    (subSpaceOf : String → List (String × PVal) → List String)
    (basePipeline : List PipelineStep)
    (config : ConfigArg) (pipeline : Option (List PipelineStep))
    (dp : Option (List (String × PVal)))
    (inc exc : Option (List String))
    (randomState : Option Nat) : Except String PipelineState :=
  let steps := pipeline.getD basePipeline
  let dpStored := dp.getD []
  let cfgRes : Except String Configuration :=
    match config with
    | ConfigArg.none => Except.ok (defaultCfg (buildCS dp inc exc))
    | ConfigArg.dict v =>
        let cs := buildCS dp inc exc
        let c : Configuration := ⟨cs, v⟩
        if cs = c.space then Except.ok c
        else Except.error (mismatchMsg cs c.space)
    | ConfigArg.conf c =>
        let cs := buildCS dp inc exc
        if cs = c.space then Except.ok c
        else Except.error (mismatchMsg cs c.space)
  match cfgRes with
  | Except.error e => Except.error e
  | Except.ok configuration0 =>
      match setHyperparameters subSpaceOf dpStored steps configuration0 with
      | Except.error e => Except.error e
      | Except.ok (cfg, steps2) =>
          Except.ok
            { steps := steps2, dataset_properties_ := dpStored,
              configuration_ := cfg,
              random_state :=
                match randomState with
                | Option.none => checkRandomState 1
                | some s => checkRandomState s }

/-- Claim C3: a supplied `Configuration` whose space differs from the freshly
rebuilt one makes construction fail with the mismatch error carrying both
spaces, and a configuration with the matching space is stored unchanged and
applied through `set_hyperparameters`. -/
theorem config_space_mismatch_check
    (buildCS : Option (List (String × PVal)) → Option (List String) →
      Option (List String) → List String)
    (defaultCfg : List String → Configuration)
    (subSpaceOf : String → List (String × PVal) → List String)
    (basePipeline : List PipelineStep) (c : Configuration)
    (pipeline : Option (List PipelineStep))
    (dp : Option (List (String × PVal)))
    (inc exc : Option (List String)) (randomState : Option Nat) :
    (c.space ≠ buildCS dp inc exc →
        pipelineInit buildCS defaultCfg subSpaceOf basePipeline
            (ConfigArg.conf c) pipeline dp inc exc randomState =
          Except.error (mismatchMsg (buildCS dp inc exc) c.space)) ∧
      (c.space = buildCS dp inc exc →
        ∀ st, pipelineInit buildCS defaultCfg subSpaceOf basePipeline
            (ConfigArg.conf c) pipeline dp inc exc randomState =
          Except.ok st →
          st.configuration_ = c ∧
            setHyperparameters subSpaceOf (dp.getD [])
              (pipeline.getD basePipeline) c = Except.ok (c, st.steps)) := by
  constructor
  · intro hne
    unfold pipelineInit
    dsimp only
    rw [if_neg (fun hc => hne hc.symm)]
  · intro heq st h
    unfold pipelineInit at h
    dsimp only at h
    rw [if_pos heq.symm] at h
    dsimp only at h
    cases hset : setHyperparameters subSpaceOf (dp.getD [])
        (pipeline.getD basePipeline) c with
    | error e => rw [hset] at h; exact absurd h (by simp)
    | ok p =>
      obtain ⟨pc, psteps⟩ := p
      rw [hset] at h
      simp only [Except.ok.injEq] at h
      have hpc : pc = c := by
        rw [setHyperparameters] at hset
        cases hr : setHypSteps subSpaceOf (dp.getD []) c
            (pipeline.getD basePipeline) with
        | error e => rw [hr] at hset; exact absurd hset (by simp)
        | ok s2 =>
          rw [hr] at hset
          simp only [Except.ok.injEq, Prod.mk.injEq] at hset
          exact hset.1.symm
      subst hpc
      subst h
      exact ⟨rfl, rfl⟩

/-- Witness for C3: a mismatching space errors; a matching one is accepted
and routed. -/
theorem config_space_mismatch_check_witness :
    pipelineInit (fun _ _ _ => ["h"]) (fun s => ⟨s, []⟩) (fun _ _ => ["x"])
        [⟨"s", NodeKind.component, Option.none⟩]
        (ConfigArg.conf ⟨["g"], []⟩) Option.none Option.none Option.none
        Option.none Option.none =
      Except.error (mismatchMsg ["h"] ["g"]) ∧
    (⟨[⟨"s", NodeKind.component, some ⟨["x"], [("x", some (PVal.pint 1))]⟩⟩],
        [], ⟨["h"], [("s:x", some (PVal.pint 1))]⟩, ⟨1⟩⟩ :
          PipelineState).configuration_ =
        ⟨["h"], [("s:x", some (PVal.pint 1))]⟩ ∧
      setHyperparameters (fun _ _ => ["x"]) []
          [⟨"s", NodeKind.component, Option.none⟩]
          ⟨["h"], [("s:x", some (PVal.pint 1))]⟩ =
        Except.ok (⟨["h"], [("s:x", some (PVal.pint 1))]⟩,
          [⟨"s", NodeKind.component,
            some ⟨["x"], [("x", some (PVal.pint 1))]⟩⟩]) :=
  ⟨(config_space_mismatch_check (fun _ _ _ => ["h"]) (fun s => ⟨s, []⟩)
      (fun _ _ => ["x"]) [⟨"s", NodeKind.component, Option.none⟩] ⟨["g"], []⟩
      Option.none Option.none Option.none Option.none Option.none).1
      (by decide),
    (config_space_mismatch_check (fun _ _ _ => ["h"]) (fun s => ⟨s, []⟩)
      (fun _ _ => ["x"]) [⟨"s", NodeKind.component, Option.none⟩]
      ⟨["h"], [("s:x", some (PVal.pint 1))]⟩
      Option.none Option.none Option.none Option.none Option.none).2 rfl
      ⟨[⟨"s", NodeKind.component, some ⟨["x"], [("x", some (PVal.pint 1))]⟩⟩],
        [], ⟨["h"], [("s:x", some (PVal.pint 1))]⟩, ⟨1⟩⟩ rfl⟩

/-- Claim C10: a pipeline constructed with `random_state=None` gets
`check_random_state(1)`, one constructed with a seed gets
`check_random_state(seed)`, and any two pipelines constructed without an
explicit seed have identical random state. -/
theorem random_state_default_seed
    (buildCS : Option (List (String × PVal)) → Option (List String) →
      Option (List String) → List String)
    (defaultCfg : List String → Configuration)
    (subSpaceOf : String → List (String × PVal) → List String)
    (basePipeline : List PipelineStep) (config : ConfigArg)
    (pipeline : Option (List PipelineStep))
    (dp : Option (List (String × PVal))) (inc exc : Option (List String)) :
    (∀ st, pipelineInit buildCS defaultCfg subSpaceOf basePipeline config
        pipeline dp inc exc Option.none = Except.ok st →
        st.random_state = checkRandomState 1) ∧
      (∀ s st, pipelineInit buildCS defaultCfg subSpaceOf basePipeline config
          pipeline dp inc exc (some s) = Except.ok st →
          st.random_state = checkRandomState s) ∧
      (∀ (buildCS2 : Option (List (String × PVal)) → Option (List String) →
          Option (List String) → List String)
        (defaultCfg2 : List String → Configuration)
        (subSpaceOf2 : String → List (String × PVal) → List String)
        (basePipeline2 : List PipelineStep) (config2 : ConfigArg)
        (pipeline2 : Option (List PipelineStep))
        (dp2 : Option (List (String × PVal)))
        (inc2 exc2 : Option (List String)) (st st' : PipelineState),
        pipelineInit buildCS defaultCfg subSpaceOf basePipeline config
            pipeline dp inc exc Option.none = Except.ok st →
        pipelineInit buildCS2 defaultCfg2 subSpaceOf2 basePipeline2 config2
            pipeline2 dp2 inc2 exc2 Option.none = Except.ok st' →
        st.random_state = st'.random_state) := by
  have key : ∀ (buildCS' : Option (List (String × PVal)) → Option (List String) →
      Option (List String) → List String)
      (defaultCfg' : List String → Configuration)
      (subSpaceOf' : String → List (String × PVal) → List String)
      (basePipeline' : List PipelineStep) (config' : ConfigArg)
      (pipeline' : Option (List PipelineStep))
      (dp' : Option (List (String × PVal))) (inc' exc' : Option (List String))
      (rs : Option Nat) (st : PipelineState),
      pipelineInit buildCS' defaultCfg' subSpaceOf' basePipeline' config'
          pipeline' dp' inc' exc' rs = Except.ok st →
      st.random_state = checkRandomState (rs.getD 1) := by
    intro buildCS' defaultCfg' subSpaceOf' basePipeline' config' pipeline'
      dp' inc' exc' rs st h
    unfold pipelineInit at h
    cases config' with
    | none =>
      dsimp only at h
      cases hset : setHyperparameters subSpaceOf' (dp'.getD [])
          (pipeline'.getD basePipeline') (defaultCfg' (buildCS' dp' inc' exc')) with
      | error e =>
        rw [hset] at h
        exact absurd h (by simp)
      | ok p =>
        obtain ⟨pc, psteps⟩ := p
        rw [hset] at h
        simp only [Except.ok.injEq] at h
        rw [← h]
        cases rs with
        | none => rfl
        | some s => rfl
    | conf c =>
      dsimp only at h
      by_cases hcs : buildCS' dp' inc' exc' = c.space
      · rw [if_pos hcs] at h
        dsimp only at h
        cases hset : setHyperparameters subSpaceOf' (dp'.getD [])
            (pipeline'.getD basePipeline') c with
        | error e =>
          rw [hset] at h
          exact absurd h (by simp)
        | ok p =>
          obtain ⟨pc, psteps⟩ := p
          rw [hset] at h
          simp only [Except.ok.injEq] at h
          rw [← h]
          cases rs with
          | none => rfl
          | some s => rfl
      · rw [if_neg hcs] at h
        exact absurd h (by simp)
    | dict v =>
      dsimp only at h
      rw [if_pos rfl] at h
      dsimp only at h
      cases hset : setHyperparameters subSpaceOf' (dp'.getD [])
          (pipeline'.getD basePipeline') (⟨buildCS' dp' inc' exc', v⟩ : Configuration) with
      | error e =>
        rw [hset] at h
        exact absurd h (by simp)
      | ok p =>
        obtain ⟨pc, psteps⟩ := p
        rw [hset] at h
        simp only [Except.ok.injEq] at h
        rw [← h]
        cases rs with
        | none => rfl
        | some s => rfl
  refine ⟨?_, ?_, ?_⟩
  · intro st h
    exact key buildCS defaultCfg subSpaceOf basePipeline config pipeline dp
      inc exc Option.none st h
  · intro s st h
    exact key buildCS defaultCfg subSpaceOf basePipeline config pipeline dp
      inc exc (some s) st h
  · intro buildCS2 defaultCfg2 subSpaceOf2 basePipeline2 config2 pipeline2
      dp2 inc2 exc2 st st' h h'
    rw [key buildCS defaultCfg subSpaceOf basePipeline config pipeline dp
        inc exc Option.none st h,
      key buildCS2 defaultCfg2 subSpaceOf2 basePipeline2 config2 pipeline2
        dp2 inc2 exc2 Option.none st' h']

/-- Witness for C10 at a concrete empty pipeline. -/
theorem random_state_default_seed_witness :
    (⟨[], [], ⟨[], []⟩, ⟨1⟩⟩ : PipelineState).random_state =
      checkRandomState 1 :=
  (random_state_default_seed (fun _ _ _ => []) (fun _ => ⟨[], []⟩)
      (fun _ _ => []) [] ConfigArg.none Option.none Option.none Option.none
      Option.none).1 ⟨[], [], ⟨[], []⟩, ⟨1⟩⟩ rfl

/-- The non-`None` hyperparameter values of the active configuration, in
configuration iteration order (`__repr__` builds this dict after
`_populate_values()`). -/
def configDict (cfg : Configuration) : List (String × PVal) :=
  cfg.values.filterMap (fun pv => pv.2.map (fun v => (pv.1, v)))

/-- Python string `<`: lexicographic comparison of code points. -/
def charListLt : List Char → List Char → Bool
  | [], [] => false
  | [], _ :: _ => true
  | _ :: _, [] => false
  | a :: as, b :: bs =>
      if a < b then true else if b < a then false else charListLt as bs

/-- Python `a < b` on strings. -/
def strLt (a b : String) : Bool := charListLt a.toList b.toList

/-- Insertion into a name-sorted list (Python string order is lexicographic on
code points). -/
def insertByName (p : String × PVal) :
    List (String × PVal) → List (String × PVal)
  | [] => [p]
  | q :: r => if strLt q.1 p.1 then q :: insertByName p r else p :: q :: r

/-- Python `sorted` by hyperparameter name. -/
def sortByName (l : List (String × PVal)) : List (String × PVal) :=
  l.foldr insertByName []

/-- Python `str` of a dict of values, e.g. `{'b': 1, 'a': 2}` (insertion
order, values via `repr`). -/
def pyDictStr (l : List (String × PVal)) : String :=
  "\x7b" ++ String.intercalate ", "
    (l.map (fun pv => "\x27" ++ pv.1 ++ "\x27: " ++ pyRepr pv.2)) ++ "\x7d"

/-- The `configuration_string` computed by `__repr__`: the non-`None`
hyperparameters sorted by name. -/
def configurationString (cfg : Configuration) : String :=
  "config=\x7b\n  " ++ String.intercalate ",\n  "
    ((sortByName (configDict cfg)).map
      (fun pv => "\x27" ++ pv.1 ++ "\x27: " ++ pyRepr pv.2)) ++ "\x7d"

/-- One dataset-properties item as formatted by `__repr__` (string values get
quoted, anything else is rendered with `str`). -/
def dpItemStr (pv : String × PVal) : String :=
  match pv.2 with
  | PVal.pstr s => "\x27" ++ pv.1 ++ "\x27: \x27" ++ s ++ "\x27"
  | v => "\x27" ++ pv.1 ++ "\x27: " ++ pyStr v

/-- The `dataset_properties_string` built by `__repr__` (items in dict
insertion order, not sorted). -/
def datasetPropertiesString (dp : List (String × PVal)) : String :=
  match dp with
  | [] => "dataset_properties=\x7b\x7d"
  | _ => "dataset_properties=\x7b\n  " ++
      String.intercalate ",\n  " (dp.map dpItemStr) ++ "\x7d"

/-- `BasePipeline.__repr__`.  Note the branch taken when
`len(self.dataset_properties_) > 0`: line 341 of `base.py` interpolates the
raw dict `configuration` (insertion order, via `str`) into
`'%s(%s,\n%s)'`, not the sorted `configuration_string` it just computed. -/
def pipelineRepr (className : String) (cfg : Configuration)
    (dp : List (String × PVal)) : String :=
  if 0 < dp.length then
    className ++ "(" ++ pyDictStr (configDict cfg) ++ ",\n" ++
      datasetPropertiesString dp ++ ")"
  else
    className ++ "(" ++ configurationString cfg ++ ")"

/-- Claim C9 (code bug): with a non-empty dataset-properties mapping and a
configuration whose iteration order is not name-sorted, `__repr__` renders the
hyperparameters in unsorted insertion order (first conjunct), while the
sorted `configuration_string` the spec describes — computed by the method and
then ignored on this branch — differs (second conjunct). -/
theorem repr_unsorted_when_dataset_properties_nonempty :
    pipelineRepr "P"
        ⟨["b:x", "a:y"],
          [("b:x", some (PVal.pint 1)), ("a:y", some (PVal.pint 2))]⟩
        [("sparse", PVal.pbool false)] =
      "P(\x7b\x27b:x\x27: 1, \x27a:y\x27: 2\x7d,\ndataset_properties=\x7b\n  \x27sparse\x27: False\x7d)" ∧
      configurationString
          ⟨["b:x", "a:y"],
            [("b:x", some (PVal.pint 1)), ("a:y", some (PVal.pint 2))]⟩ =
        "config=\x7b\n  \x27a:y\x27: 2,\n  \x27b:x\x27: 1\x7d" := by
  constructor
  · rfl
  · rfl

end AutoSklearn
